import Mathlib

/-!
Verification of the CarnavalMarketplace backend request handlers.

The development shallowly embeds the data model (models/index.js), the
authentication routes (routes/auth.js) and the product routes
(routes/products.js) as pure Lean functions over an explicit database
state, and proves the documented request/response contracts about them.

Conventions of the embedding:
* UUID primary keys are modelled as natural numbers handed out by a
  `nextId` counter in the database state; a freshly generated id is
  always distinct from every existing id.
* JSON request-body fields are `Option String` (absent = `none`) except
  where a numeric value matters, where the JS value type `Val` is used;
  JS truthiness of such fields is modelled by `truthyS` / `jsTruthy`.
* Creation/modification timestamps are not modelled; `lastLoginAt`
  stores the request clock (seconds).
* External collaborators (the password-hashing primitive and the token
  signing/verification primitive) are modelled from the spec, which
  treats them as black boxes specified only through their interfaces.
-/

namespace Carnaval

/-- A JavaScript/JSON value, as far as the handlers inspect one. -/
inductive Val where
  | vs : String → Val
  | vn : Int → Val
  | vb : Bool → Val
  | vnull : Val
deriving Repr, DecidableEq

/-- JS truthiness of a `Val`: `""`, `0`, `false` and `null`/absent are falsy. -/
def jsTruthy : Val → Bool
  | .vs s => s ≠ ""
  | .vn n => n ≠ 0
  | .vb b => b
  | .vnull => false

/-- JS truthiness of an optional string field: absent and `""` are falsy. -/
def truthyS : Option String → Bool
  | some s => s ≠ ""
  | none => false

/-- JS `x || null` applied to an optional string field. -/
def jsOrNull (o : Option String) : Option String :=
  match o with
  | some s => if s = "" then none else some s
  | none => none

/-- JS `x || d` applied to an optional string field. -/
def jsOr (o : Option String) (dflt : String) : String :=
  match o with
  | some s => if s = "" then dflt else s
  | none => dflt

/-- JS `parseFloat` as the product route applies it to a price value.
Integer-valued inputs parse to themselves; a non-numeric input parses to
no number (NaN), modelled as `vnull`.  Fractional decimals are modelled
at integer precision. -/
def parseFloatV : Val → Val
  | .vn n => .vn n
  | .vs s =>
    match s.toInt? with
    | some n => .vn n
    | none => .vnull
  | _ => .vnull

/-! ## External primitives, modelled from the spec -/

/-- Modelled from the spec: the password hashing primitive (bcryptjs) is an
external collaborator, specified only as a deterministic one-way digest;
`bcrypt.hash(password, 12)` is modelled as a tagged injection. -/
def bcryptHash (password : String) : String :=
  "$2b$12$" ++ password

/-- Modelled from the spec: `bcrypt.compare(password, hash)` succeeds exactly
when `hash` is the digest of `password`. -/
def bcryptCompare (password hash : String) : Bool :=
  bcryptHash password = hash

/-- A bearer token as the handlers see one: either a payload signed with a
secret and carrying an expiry timestamp (seconds), or garbage. -/
inductive Token where
  | signed (userId : Nat) (exp : Nat) (secret : String)
  | malformed (raw : String)
deriving Repr, DecidableEq

/-- The number of seconds in the 7-day token validity window. -/
def sevenDays : Nat := 7 * 24 * 60 * 60

/-- `generateToken` from routes/auth.js: `jwt.sign({userId}, secret,
{expiresIn: 7d})`, issued at clock time `now`. -/
def generateToken (userId : Nat) (secret : String) (now : Nat) : Token :=
  .signed userId (now + sevenDays) secret

/-- Outcome of token verification. -/
inductive VerifyResult where
  | valid (userId : Nat)
  | expired
  | invalid
deriving Repr, DecidableEq

/-- Modelled from the spec: the token verification primitive (`jwt.verify`)
is an external collaborator returning one of valid-with-identity, expired,
or invalid-signature/malformed.  The signature is checked before expiry;
a token is expired once the clock reaches its expiry timestamp. -/
def jwtVerify (tok : Token) (secret : String) (now : Nat) : VerifyResult :=
  match tok with
  | .malformed _ => .invalid
  | .signed uid exp s =>
    if s ≠ secret then .invalid
    else if exp ≤ now then .expired
    else .valid uid

/-- Modelled from the spec: the data layer validates `User.email` as an
email address (`isEmail`); modelled as exactly one `@` separating a
nonempty local part from a nonempty domain. -/
def isEmailOk (s : String) : Bool :=
  s.toList.count '@' == 1 && s.toList.head? != some '@' && s.toList.getLast? != some '@'

/-! ## Data model (models/index.js) -/

/-- A row of `carnival_groups`. -/
structure CarnivalGroup where
  id : Nat
  name : String
  city : String
  province : Option String
  country : String
  description : Option String
  website : Option String
  verified : Bool
deriving Repr, DecidableEq

/-- A row of `users`.  `password` stores the bcrypt digest. -/
structure User where
  id : Nat
  email : String
  password : String
  firstName : String
  lastName : String
  phone : Option String
  address : Option String
  city : Option String
  postalCode : Option String
  isVerified : Bool
  isActive : Bool
  lastLoginAt : Option Nat
  carnivalGroupId : Nat
deriving Repr, DecidableEq

/-- A row of `categories`. -/
structure Category where
  id : Nat
  name : String
  slug : String
  description : Option String
  emoji : Option String
deriving Repr, DecidableEq

/-- A row of `products`.  `price` keeps the stored JS value. -/
structure Product where
  id : Nat
  title : String
  description : String
  price : Val
  condition : String
  size : Option String
  color : Option String
  material : Option String
  isAvailable : Bool
  isFeatured : Bool
  viewCount : Nat
  sellerId : Nat
  categoryId : Nat
deriving Repr, DecidableEq

/-- The database state: the four tables the verified routes touch, plus
the fresh-id counter modelling UUID generation. -/
structure DB where
  groups : List CarnivalGroup
  users : List User
  categories : List Category
  products : List Product
  nextId : Nat
deriving Repr, DecidableEq

/-- The empty database. -/
def DB.empty : DB := ⟨[], [], [], [], 0⟩

/-- Constraint violations surfaced by the data layer, the closed error
taxonomy of the spec: notNull/format violations (SequelizeValidationError),
unique-constraint conflicts, and foreign-key violations. -/
inductive DbError where
  | validation
  | unique
  | foreignKey
deriving Repr, DecidableEq

/-- `CarnivalGroup.create`: enforces the unique `name` constraint, fills
column defaults, assigns a fresh id. -/
def DB.createGroup (db : DB) (name city country : String) (verified : Bool) :
    Except DbError (CarnivalGroup × DB) :=
  if db.groups.any (fun g => g.name = name) then .error .unique
  else
    let g : CarnivalGroup := ⟨db.nextId, name, city, none, country, none, none, verified⟩
    .ok (g, { db with groups := db.groups ++ [g], nextId := db.nextId + 1 })

/-- `User.create`: enforces the `isEmail` format validation, the unique
`email` constraint, `allowNull: false` on `carnivalGroupId`, and the
foreign key to `carnival_groups`; fills the `isVerified`/`isActive`
defaults and assigns a fresh id. -/
def DB.createUser (db : DB) (email password firstName lastName : String)
    (phone address city postalCode : Option String) (carnivalGroupId : Option Nat) :
    Except DbError (User × DB) :=
  if ¬ isEmailOk email then .error .validation
  else if db.users.any (fun u => u.email = email) then .error .unique
  else
    match carnivalGroupId with
    | none => .error .validation
    | some gid =>
      if ¬ db.groups.any (fun g => g.id = gid) then .error .foreignKey
      else
        let u : User :=
          ⟨db.nextId, email, password, firstName, lastName,
           phone, address, city, postalCode, false, true, none, gid⟩
        .ok (u, { db with users := db.users ++ [u], nextId := db.nextId + 1 })

/-- The legal values of the `condition` enum column. -/
def conditionValues : List String := ["new", "like-new", "good", "fair", "needs-repair"]

/-- The `min: 0.01` validation on `Product.price`, at the integer precision
of the embedding: a strictly positive number. -/
def priceValid : Val → Bool
  | .vn n => 0 < n
  | _ => false

/-- `Product.create`: enforces the price validation, the `condition` enum,
`allowNull: false` on `categoryId`, and the foreign keys to `categories`
and `users`; assigns a fresh id. -/
def DB.createProduct (db : DB) (title description : String) (price : Val)
    (condition : String) (size color material : Option String)
    (categoryId : Option Nat) (sellerId : Nat) (isAvailable : Bool) :
    Except DbError (Product × DB) :=
  if ¬ priceValid price then .error .validation
  else if ¬ conditionValues.contains condition then .error .validation
  else
    match categoryId with
    | none => .error .validation
    | some cid =>
      if ¬ db.categories.any (fun c => c.id = cid) then .error .foreignKey
      else if ¬ db.users.any (fun u => u.id = sellerId) then .error .foreignKey
      else
        let p : Product :=
          ⟨db.nextId, title, description, price, condition,
           size, color, material, isAvailable, false, 0, sellerId, cid⟩
        .ok (p, { db with products := db.products ++ [p], nextId := db.nextId + 1 })

/-! ## Attribute projections -/

/-- Serialization of a full `users` row into (column, value) pairs, in
column order. -/
def userRow (u : User) : List (String × Val) :=
  [("id", .vn u.id), ("email", .vs u.email), ("password", .vs u.password),
   ("firstName", .vs u.firstName), ("lastName", .vs u.lastName),
   ("phone", match u.phone with | some s => .vs s | none => .vnull),
   ("address", match u.address with | some s => .vs s | none => .vnull),
   ("city", match u.city with | some s => .vs s | none => .vnull),
   ("postalCode", match u.postalCode with | some s => .vs s | none => .vnull),
   ("isVerified", .vb u.isVerified), ("isActive", .vb u.isActive),
   ("lastLoginAt", match u.lastLoginAt with | some n => .vn n | none => .vnull),
   ("carnivalGroupId", .vn u.carnivalGroupId)]

/-- The `attributes: { exclude: [...] }` projection: drop the named columns. -/
def excludeAttrs (ex : List String) (row : List (String × Val)) : List (String × Val) :=
  row.filter (fun p => ¬ ex.contains p.1)

/-- The `attributes: [name, city, country]` projection of an included
carnival group. -/
def groupNCC (g : CarnivalGroup) : String × String × String :=
  (g.name, g.city, g.country)

/-! ## Auth routes (routes/auth.js) -/

/-- The request body of POST /api/auth/register. -/
structure RegisterBody where
  email : Option String
  password : Option String
  firstName : Option String
  lastName : Option String
  phone : Option String
  carnivalGroupId : Option Nat
  address : Option String
  city : Option String
  postalCode : Option String
deriving Repr, DecidableEq

/-- Response of the register handler: 400 with a message, 201 with token,
sanitized user row and included group projection, or 500. -/
inductive RegisterResp where
  | badRequest (error : String)
  | created (token : Token) (user : List (String × Val))
      (group : Option (String × String × String))
  | serverError (error : String)
deriving Repr, DecidableEq

/-- HTTP status of a register response. -/
def RegisterResp.status : RegisterResp → Nat
  | .badRequest _ => 400
  | .created _ _ _ => 201
  | .serverError _ => 500

/-- The catch block of the register handler: a SequelizeValidationError
maps to 400 "Validation error", a SequelizeUniqueConstraintError to 400
"Email already exists", anything else to 500. -/
def registerCatch : DbError → RegisterResp
  | .validation => .badRequest "Validation error"
  | .unique => .badRequest "Email already exists"
  | .foreignKey => .serverError "Server error during registration"

/-- The carnival-group resolution of the register handler: no id supplied
uses the first existing group or creates the default one; a supplied id
that resolves keeps it; a supplied id that does not resolve falls back to
the first existing group, or to `null` when there is none. -/
def resolveGroupId (db : DB) (cgid : Option Nat) :
    Except (DbError × DB) (Option Nat × DB) :=
  match cgid with
  | none =>
    match db.groups.head? with
    | some g => .ok (some g.id, db)
    | none =>
      match db.createGroup "Default Group" "Brussels" "Belgium" true with
      | .ok (g, db1) => .ok (some g.id, db1)
      | .error e => .error (e, db)
  | some gid =>
    match db.groups.find? (fun g => g.id = gid) with
    | some _ => .ok (some gid, db)
    | none => .ok ((db.groups.head?).map (fun g => g.id), db)

/-- POST /api/auth/register. -/
def register (db : DB) (b : RegisterBody) (secret : String) (now : Nat) :
    RegisterResp × DB :=
  if ¬ (truthyS b.email && truthyS b.password && truthyS b.firstName && truthyS b.lastName) then
    (.badRequest "Email, password, first name, and last name are required", db)
  else
    let email := b.email.getD ""
    match db.users.find? (fun u => u.email = email) with
    | some _ => (.badRequest "User already exists with this email", db)
    | none =>
      match resolveGroupId db b.carnivalGroupId with
      | .error (e, db1) => (registerCatch e, db1)
      | .ok (groupId, db1) =>
        let hashed := bcryptHash (b.password.getD "")
        match db1.createUser email hashed (b.firstName.getD "") (b.lastName.getD "")
            (jsOrNull b.phone) (jsOrNull b.address) (jsOrNull b.city)
            (jsOrNull b.postalCode) groupId with
        | .error e => (registerCatch e, db1)
        | .ok (u, db2) =>
          let token := generateToken u.id secret now
          let userData := excludeAttrs ["password"] (userRow u)
          let grp := (db2.groups.find? (fun g => g.id = u.carnivalGroupId)).map groupNCC
          (.created token userData grp, db2)

/-- The request body of POST /api/auth/login. -/
structure LoginBody where
  email : Option String
  password : Option String
deriving Repr, DecidableEq

/-- Response of the login handler. -/
inductive LoginResp where
  | badRequest (error : String)
  | unauthorized (error : String)
  | ok (token : Token) (user : List (String × Val))
      (group : Option (String × String × String))
deriving Repr, DecidableEq

/-- HTTP status of a login response. -/
def LoginResp.status : LoginResp → Nat
  | .badRequest _ => 400
  | .unauthorized _ => 401
  | .ok _ _ _ => 200

/-- The hand-built response user object of the login handler (the
projection written out at the end of the login route). -/
def loginUserData (u : User) : List (String × Val) :=
  [("id", .vn u.id), ("email", .vs u.email),
   ("firstName", .vs u.firstName), ("lastName", .vs u.lastName),
   ("phone", match u.phone with | some s => .vs s | none => .vnull),
   ("address", match u.address with | some s => .vs s | none => .vnull),
   ("city", match u.city with | some s => .vs s | none => .vnull),
   ("postalCode", match u.postalCode with | some s => .vs s | none => .vnull),
   ("isVerified", .vb u.isVerified),
   ("lastLoginAt", match u.lastLoginAt with | some n => .vn n | none => .vnull)]

/-- POST /api/auth/login. -/
def login (db : DB) (b : LoginBody) (secret : String) (now : Nat) :
    LoginResp × DB :=
  if ¬ (truthyS b.email && truthyS b.password) then
    (.badRequest "Email and password are required", db)
  else
    match db.users.find? (fun u => u.email = b.email.getD "") with
    | none => (.unauthorized "Invalid email or password", db)
    | some u =>
      if ¬ u.isActive then (.unauthorized "Account is deactivated", db)
      else if ¬ bcryptCompare (b.password.getD "") u.password then
        (.unauthorized "Invalid email or password", db)
      else
        let u' : User := { u with lastLoginAt := some now }
        let db' : DB :=
          { db with users := db.users.map (fun v => if v.id = u.id then u' else v) }
        let token := generateToken u.id secret now
        let grp := (db.groups.find? (fun g => g.id = u.carnivalGroupId)).map groupNCC
        (.ok token (loginUserData u') grp, db')

/-- Response of the /me handler. -/
inductive MeResp where
  | unauthorized (error : String)
  | ok (user : List (String × Val)) (group : Option (String × String × String))
deriving Repr, DecidableEq

/-- HTTP status of a /me response. -/
def MeResp.status : MeResp → Nat
  | .unauthorized _ => 401
  | .ok _ _ => 200

/-- GET /api/auth/me: verify the bearer token, discriminating expired
tokens from malformed/badly-signed ones, then load the user without the
password column. -/
def me (db : DB) (authToken : Option Token) (secret : String) (now : Nat) :
    MeResp :=
  match authToken with
  | none => .unauthorized "No token provided"
  | some tok =>
    match jwtVerify tok secret now with
    | .invalid => .unauthorized "Invalid token"
    | .expired => .unauthorized "Token expired"
    | .valid uid =>
      match db.users.find? (fun u => u.id = uid) with
      | none => .unauthorized "User not found"
      | some u =>
        .ok (excludeAttrs ["password"] (userRow u))
          ((db.groups.find? (fun g => g.id = u.carnivalGroupId)).map groupNCC)

/-! ## Product routes (routes/products.js) -/

/-- The authenticate middleware of the product routes: any verification
failure, expiry included, maps to 401 "Invalid token". -/
def authenticate (db : DB) (authToken : Option Token) (secret : String) (now : Nat) :
    Except String User :=
  match authToken with
  | none => .error "No token provided"
  | some tok =>
    match jwtVerify tok secret now with
    | .valid uid =>
      match db.users.find? (fun u => u.id = uid) with
      | none => .error "User not found"
      | some u => .ok u
    | _ => .error "Invalid token"

/-- The request body of POST /api/products.  A `sellerId` field may be
present in a client body; the handler never destructures it. -/
structure ProductBody where
  title : Option String
  description : Option String
  price : Val
  condition : Option String
  categoryId : Option Nat
  size : Option String
  color : Option String
  material : Option String
  sellerId : Option Nat
deriving Repr, DecidableEq

/-- The seller/category relation projections of the product responses. -/
structure ProductProjection where
  product : Product
  seller : Option (Nat × String × String)
  sellerGroup : Option (String × String × String)
  category : Option (String × String × Option String)
deriving Repr, DecidableEq

/-- Re-fetch of a created product with its relation projections. -/
def projectProduct (db : DB) (p : Product) : ProductProjection :=
  let seller := db.users.find? (fun u => u.id = p.sellerId)
  { product := p
    seller := seller.map (fun u => (u.id, u.firstName, u.lastName))
    sellerGroup :=
      (seller.bind (fun u => db.groups.find? (fun g => g.id = u.carnivalGroupId))).map groupNCC
    category :=
      (db.categories.find? (fun c => c.id = p.categoryId)).map
        (fun c => (c.name, c.slug, c.emoji)) }

/-- Response of the product-create handler. -/
inductive ProductResp where
  | unauthorized (error : String)
  | badRequest (error : String)
  | created (product : ProductProjection)
  | serverError (error : String)
deriving Repr, DecidableEq

/-- HTTP status of a product-create response. -/
def ProductResp.status : ProductResp → Nat
  | .unauthorized _ => 401
  | .badRequest _ => 400
  | .created _ => 201
  | .serverError _ => 500

/-- POST /api/products: authenticate, check the four required fields by
truthiness, resolve a default category when `categoryId` is missing
(a branch the required-field check makes unreachable), then persist with
`sellerId` taken from the authenticated caller and `isAvailable: true`. -/
def createProductRoute (db : DB) (authToken : Option Token) (b : ProductBody)
    (secret : String) (now : Nat) : ProductResp × DB :=
  match authenticate db authToken secret now with
  | .error msg => (.unauthorized msg, db)
  | .ok caller =>
    if ¬ (truthyS b.title && truthyS b.description && jsTruthy b.price &&
          (b.categoryId).isSome) then
      (.badRequest "Title, description, price, and category are required", db)
    else
      let validCategoryId :=
        match b.categoryId with
        | some cid => some cid
        | none => (db.categories.head?).map (fun c => c.id)
      match db.createProduct (b.title.getD "") (b.description.getD "")
          (parseFloatV b.price) (jsOr b.condition "good") (jsOrNull b.size)
          (jsOrNull b.color) (jsOrNull b.material) validCategoryId caller.id true with
      | .error _ => (.serverError "Failed to create product", db)
      | .ok (p, db') => (.created (projectProduct db' p), db')

/-! ## The mutating API surface as a transition system -/

/-- One state-changing API call. -/
inductive Op where
  | opRegister (b : RegisterBody) (secret : String) (now : Nat)
  | opLogin (b : LoginBody) (secret : String) (now : Nat)
  | opCreateProduct (authToken : Option Token) (b : ProductBody) (secret : String) (now : Nat)
deriving Repr

/-- The database after one API call. -/
def step (db : DB) (op : Op) : DB :=
  match op with
  | .opRegister b s n => (register db b s n).2
  | .opLogin b s n => (login db b s n).2
  | .opCreateProduct a b s n => (createProductRoute db a b s n).2

/-- The database reached by a sequence of API calls from the empty state. -/
def run (ops : List Op) : DB := ops.foldl step DB.empty

/-! ## Concrete fixtures for witnesses -/

/-- A fixture carnival group. -/
def wGroup : CarnivalGroup :=
  ⟨0, "Orde van de Maskers", "Aalst", none, "Belgium", none, none, true⟩

/-- A fixture active user, member of `wGroup`. -/
def wUser : User :=
  ⟨1, "seller@example.be", bcryptHash "Carnaval1!", "An", "Claes",
   none, none, none, none, false, true, none, 0⟩

/-- A fixture deactivated user. -/
def wInactiveUser : User :=
  ⟨2, "inactive@example.be", bcryptHash "Carnaval1!", "Jo", "Maes",
   none, none, none, none, false, false, none, 0⟩

/-- A fixture category. -/
def wCategory : Category := ⟨3, "Masks", "masks", none, none⟩

/-- A fixture database with one group, two users and one category. -/
def wDB : DB := ⟨[wGroup], [wUser, wInactiveUser], [wCategory], [], 4⟩

/-- The insecure fallback signing secret the code hardcodes. -/
def wSecret : String := "carnival-secret-key"

/-- A token for `wUser`, issued at clock 0. -/
def wToken : Token := generateToken 1 wSecret 0

/-- The registration body of the end-to-end scenario of the spec. -/
def registerBodyJan : RegisterBody :=
  ⟨some "a@b.com", some "Str0ng!Pass", some "Jan", some "Peeters",
   none, none, none, none, none⟩

/-- A registration body naming a carnival group id that exists nowhere. -/
def registerBodyGhostGroup : RegisterBody :=
  ⟨some "a@b.com", some "Str0ng!Pass", some "Jan", some "Peeters",
   none, some 42, none, none, none⟩

/-- A product body carrying a spoofed sellerId field. -/
def wBodySpoofed : ProductBody :=
  ⟨some "Carnival mask", some "A hand painted carnival mask", .vn 25,
   none, some 3, none, none, none, some 999⟩

/-- The same product body without the sellerId field. -/
def wBodyPlain : ProductBody :=
  ⟨some "Carnival mask", some "A hand painted carnival mask", .vn 25,
   none, some 3, none, none, none, none⟩

/-- The user-object part of a register response (empty unless 201). -/
def RegisterResp.userFields : RegisterResp → List (String × Val)
  | .created _ u _ => u
  | _ => []

/-- The sellerId of the product of a created-product response, if any. -/
def ProductResp.createdSellerId : ProductResp → Option Nat
  | .created p => some p.product.sellerId
  | _ => none

/-- The structural invariant of reachable database states: distinct user
emails, distinct user ids, and every user id below the fresh-id counter. -/
def DB.wellFormed (db : DB) : Prop :=
  (db.users.map (fun u => u.email)).Nodup ∧
  (db.users.map (fun u => u.id)).Nodup ∧
  ∀ u ∈ db.users, u.id < db.nextId

/-! ## Helper lemmas -/

theorem any_eq_false_of_find?_eq_none {α} {p : α → Bool} {l : List α}
    (h : l.find? p = none) : l.any p = false := by
  simp only [List.find?_eq_none] at h
  simp only [List.any_eq_false]
  exact h

/-- Inversion of a successful `Product.create`. -/
theorem createProduct_ok_inv {db : DB} {t d : String} {pr : Val} {c : String}
    {sz co m : Option String} {cat : Option Nat} {sid : Nat} {av : Bool}
    {q : Product} {db' : DB}
    (h : db.createProduct t d pr c sz co m cat sid av = .ok (q, db')) :
    q.sellerId = sid ∧ db'.users = db.users ∧ db'.groups = db.groups ∧
    db'.products = db.products ++ [q] ∧ db'.categories = db.categories ∧
    db'.nextId = db.nextId + 1 := by
  unfold DB.createProduct at h
  split at h
  · exact absurd h (by simp)
  · split at h
    · exact absurd h (by simp)
    · split at h
      · exact absurd h (by simp)
      · split at h
        · exact absurd h (by simp)
        · split at h
          · exact absurd h (by simp)
          · simp only [Except.ok.injEq, Prod.mk.injEq] at h
            obtain ⟨hq, hdb⟩ := h
            subst hq; subst hdb
            exact ⟨rfl, rfl, rfl, rfl, rfl, rfl⟩

/-- Inversion of a successful `User.create`. -/
theorem createUser_ok_inv {db : DB} {email pw fn ln : String}
    {ph ad ci pc : Option String} {cgid : Option Nat} {u : User} {db' : DB}
    (h : db.createUser email pw fn ln ph ad ci pc cgid = .ok (u, db')) :
    u.email = email ∧ u.id = db.nextId ∧ u.isActive = true ∧
    db'.users = db.users ++ [u] ∧ db'.groups = db.groups ∧
    db'.categories = db.categories ∧ db'.products = db.products ∧
    db'.nextId = db.nextId + 1 ∧
    db.users.any (fun v => v.email = email) = false ∧
    (∃ gid, cgid = some gid ∧ u.carnivalGroupId = gid) := by
  unfold DB.createUser at h
  split at h
  · exact absurd h (by simp)
  · rename_i hfmt
    split at h
    · exact absurd h (by simp)
    · rename_i hdup
      split at h
      · exact absurd h (by simp)
      · rename_i gid
        split at h
        · exact absurd h (by simp)
        · rename_i hfk
          simp only [Except.ok.injEq, Prod.mk.injEq] at h
          obtain ⟨hu, hdb⟩ := h
          subst hu; subst hdb
          refine ⟨rfl, rfl, rfl, rfl, rfl, rfl, rfl, rfl, ?_, ⟨gid, rfl, rfl⟩⟩
          simpa using hdup

/-- Inversion of a successful `CarnivalGroup.create`. -/
theorem createGroup_ok_inv {db : DB} {name city country : String} {v : Bool}
    {g : CarnivalGroup} {db' : DB}
    (h : db.createGroup name city country v = .ok (g, db')) :
    g.id = db.nextId ∧ g.name = name ∧ g.city = city ∧ g.country = country ∧
    g.verified = v ∧ db'.groups = db.groups ++ [g] ∧ db'.users = db.users ∧
    db'.categories = db.categories ∧ db'.products = db.products ∧
    db'.nextId = db.nextId + 1 := by
  unfold DB.createGroup at h
  split at h
  · exact absurd h (by simp)
  · simp only [Except.ok.injEq, Prod.mk.injEq] at h
    obtain ⟨hg, hdb⟩ := h
    subst hg; subst hdb
    exact ⟨rfl, rfl, rfl, rfl, rfl, rfl, rfl, rfl, rfl, rfl⟩

/-- A failing group resolution leaves the database unchanged. -/
theorem resolveGroupId_error_inv {db : DB} {cgid : Option Nat} {e : DbError} {db1 : DB}
    (h : resolveGroupId db cgid = .error (e, db1)) : db1 = db := by
  unfold resolveGroupId at h
  split at h
  · split at h
    · exact absurd h (by simp)
    · split at h
      · exact absurd h (by simp)
      · simp only [Except.error.injEq, Prod.mk.injEq] at h
        exact h.2.symm
  · split at h
    · exact absurd h (by simp)
    · exact absurd h (by simp)

/-- A successful group resolution never touches the user table and never
lowers the fresh-id counter. -/
theorem resolveGroupId_ok_inv {db : DB} {cgid gid? : Option Nat} {db1 : DB}
    (h : resolveGroupId db cgid = .ok (gid?, db1)) :
    db1.users = db.users ∧ db.nextId ≤ db1.nextId := by
  unfold resolveGroupId at h
  split at h
  · split at h
    · simp only [Except.ok.injEq, Prod.mk.injEq] at h
      rw [← h.2]
      exact ⟨rfl, le_refl _⟩
    · split at h
      · rename_i g db2 hcg
        simp only [Except.ok.injEq, Prod.mk.injEq] at h
        obtain ⟨-, hdb⟩ := h
        subst hdb
        obtain ⟨-, -, -, -, -, -, hu, -, -, hn⟩ := createGroup_ok_inv hcg
        exact ⟨hu, by omega⟩
      · exact absurd h (by simp)
  · split at h
    · simp only [Except.ok.injEq, Prod.mk.injEq] at h
      rw [← h.2]
      exact ⟨rfl, le_refl _⟩
    · simp only [Except.ok.injEq, Prod.mk.injEq] at h
      rw [← h.2]
      exact ⟨rfl, le_refl _⟩

/-- One register call either leaves the user table unchanged or appends a
single user whose email no existing user carries and whose id is fresh. -/
theorem register_step_shape (db : DB) (b : RegisterBody) (s : String) (n : Nat) :
    ((register db b s n).2.users = db.users ∧
      db.nextId ≤ (register db b s n).2.nextId) ∨
    (∃ u, (register db b s n).2.users = db.users ++ [u] ∧
      (∀ v ∈ db.users, v.email ≠ u.email) ∧ db.nextId ≤ u.id ∧
      (register db b s n).2.nextId = u.id + 1) := by
  simp only [register]
  split
  · left; exact ⟨rfl, le_refl _⟩
  · split
    · left; exact ⟨rfl, le_refl _⟩
    · split
      · rename_i e db1 herr
        left
        rw [resolveGroupId_error_inv herr]
        exact ⟨rfl, le_refl _⟩
      · rename_i gid? db1 hok
        obtain ⟨hu1, hn1⟩ := resolveGroupId_ok_inv hok
        split
        · rename_i e hcu
          left; exact ⟨hu1, hn1⟩
        · rename_i u db2 hcu
          obtain ⟨hue, huid, -, husers, -, -, -, hnext2, hdup, -⟩ := createUser_ok_inv hcu
          right
          dsimp only
          refine ⟨u, ?_, ?_, ?_, ?_⟩
          · rw [husers, hu1]
          · intro v hv hveq
            simp only [List.any_eq_false, decide_eq_true_eq] at hdup
            exact hdup v (by rw [hu1]; exact hv) (by rw [hveq, hue])
          · omega
          · show db2.nextId = u.id + 1
            omega

/-- A product-create call never touches the user table and never lowers
the fresh-id counter. -/
theorem createProductRoute_users (db : DB) (authToken : Option Token)
    (b : ProductBody) (s : String) (n : Nat) :
    (createProductRoute db authToken b s n).2.users = db.users ∧
    db.nextId ≤ (createProductRoute db authToken b s n).2.nextId := by
  simp only [createProductRoute]
  split
  · exact ⟨rfl, le_refl _⟩
  · split
    · exact ⟨rfl, le_refl _⟩
    · split
      · exact ⟨rfl, le_refl _⟩
      · rename_i q db' hok
        obtain ⟨-, hu, -, -, -, hn⟩ := createProduct_ok_inv hok
        refine ⟨hu, ?_⟩
        show db.nextId ≤ db'.nextId
        omega

/-- Replacing the row with the id of a member of a duplicate-free table by
a row with the same value of an attribute leaves that attribute column
unchanged. -/
theorem map_attr_replace {α : Type} {l : List User} (u u' : User)
    (hid : (l.map (fun v => v.id)).Nodup) (hu : u ∈ l)
    (f : User → α) (huid : u'.id = u.id) (hf : f u' = f u) :
    (l.map (fun v => if v.id = u.id then u' else v)).map f = l.map f := by
  rw [List.map_map]
  apply List.map_congr_left
  intro v hv
  simp only [Function.comp_apply]
  by_cases hvid : v.id = u.id
  · have hvu : v = u := List.inj_on_of_nodup_map hid hv hu hvid
    subst hvu
    simp [hf]
  · simp [hvid]

/-- The login handler preserves the database invariant. -/
theorem login_preserves_wf (db : DB) (b : LoginBody) (s : String) (n : Nat)
    (h : db.wellFormed) : ((login db b s n).2).wellFormed := by
  obtain ⟨hem, hid, hbd⟩ := h
  simp only [login]
  split
  · exact ⟨hem, hid, hbd⟩
  · split
    · exact ⟨hem, hid, hbd⟩
    · rename_i u hfind
      split
      · exact ⟨hem, hid, hbd⟩
      · split
        · exact ⟨hem, hid, hbd⟩
        · have hu : u ∈ db.users := List.mem_of_find?_eq_some hfind
          dsimp only
          refine ⟨?_, ?_, ?_⟩
          · rw [map_attr_replace u { u with lastLoginAt := some n } hid hu
              (fun v => v.email) rfl rfl]
            exact hem
          · rw [map_attr_replace u { u with lastLoginAt := some n } hid hu
              (fun v => v.id) rfl rfl]
            exact hid
          · intro w hw
            obtain ⟨v, hv, rfl⟩ := List.mem_map.mp hw
            by_cases hvid : v.id = u.id
            · simpa [hvid] using hbd v hv
            · simpa [hvid] using hbd v hv

/-- Every state-changing API call preserves the database invariant. -/
theorem step_preserves_wf (db : DB) (op : Op) (h : db.wellFormed) :
    (step db op).wellFormed := by
  obtain ⟨hem, hid, hbd⟩ := h
  cases op with
  | opLogin b s n => exact login_preserves_wf db b s n ⟨hem, hid, hbd⟩
  | opCreateProduct a b s n =>
    obtain ⟨hu, hn⟩ := createProductRoute_users db a b s n
    refine ⟨?_, ?_, ?_⟩
    · simp only [step]; rw [hu]; exact hem
    · simp only [step]; rw [hu]; exact hid
    · simp only [step]; rw [hu]
      intro v hv
      exact lt_of_lt_of_le (hbd v hv) hn
  | opRegister b s n =>
    rcases register_step_shape db b s n with ⟨hu, hn⟩ | ⟨u, hu, hfresh, hge, hnext⟩
    · refine ⟨?_, ?_, ?_⟩
      · simp only [step]; rw [hu]; exact hem
      · simp only [step]; rw [hu]; exact hid
      · simp only [step]; rw [hu]
        intro v hv
        exact lt_of_lt_of_le (hbd v hv) hn
    · have hnm : u.email ∉ db.users.map (fun v => v.email) := by
        simp only [List.mem_map]
        rintro ⟨v, hv, hveq⟩
        exact hfresh v hv hveq
      have hni : u.id ∉ db.users.map (fun v => v.id) := by
        simp only [List.mem_map]
        rintro ⟨v, hv, hveq⟩
        have := hbd v hv
        omega
      refine ⟨?_, ?_, ?_⟩
      · simp only [step]; rw [hu, List.map_append]
        simp [List.nodup_append, hem, hnm]
      · simp only [step]; rw [hu, List.map_append]
        simp [List.nodup_append, hid, hni]
      · simp only [step]; rw [hu, hnext]
        intro v hv
        rcases List.mem_append.mp hv with hvin | hvin
        · have := hbd v hvin
          omega
        · rw [List.mem_singleton.mp hvin]
          omega

/-- The invariant holds along every foldl of steps from an invariant
state. -/
theorem foldl_step_wf (ops : List Op) (db : DB) (h : db.wellFormed) :
    (ops.foldl step db).wellFormed := by
  induction ops generalizing db with
  | nil => exact h
  | cons op ops ih => exact ih _ (step_preserves_wf db op h)

/-- Every database state reachable through the API satisfies the
invariant. -/
theorem run_wf (ops : List Op) : (run ops).wellFormed :=
  foldl_step_wf ops DB.empty ⟨List.nodup_nil, List.nodup_nil, by simp [DB.empty]⟩

/-- A duplicate-free attribute column bounds the number of rows matching
any attribute value by one. -/
theorem length_filter_le_one_of_nodup_map {α : Type} (f : α → String) (l : List α)
    (h : (l.map f).Nodup) (e : String) :
    (l.filter (fun x => f x = e)).length ≤ 1 := by
  induction l with
  | nil => simp
  | cons x xs ih =>
    simp only [List.map_cons, List.nodup_cons] at h
    obtain ⟨hx, hxs⟩ := h
    by_cases hfe : f x = e
    · have hnil : xs.filter (fun y => f y = e) = [] := by
        rw [List.filter_eq_nil_iff]
        intro y hy
        simp only [decide_eq_true_eq]
        intro hye
        exact hx (by rw [hfe, ← hye]; exact List.mem_map_of_mem f hy)
      simp [List.filter_cons, hfe, hnil]
    · simp only [List.filter_cons, hfe]
      simpa using ih hxs

/-- The register catch block never produces a 201. -/
theorem registerCatch_status_ne (e : DbError) :
    RegisterResp.status (registerCatch e) ≠ 201 := by
  cases e <;> simp [registerCatch, RegisterResp.status]

/-- A register call that answers 201 was given a truthy email and leaves a
user row carrying exactly that email in the table. -/
theorem register_cases (db : DB) (b : RegisterBody) (s : String) (n : Nat) :
    RegisterResp.status (register db b s n).1 ≠ 201 ∨
    (truthyS b.email = true ∧
      ∃ u ∈ (register db b s n).2.users, u.email = b.email.getD "") := by
  by_cases hgate : (truthyS b.email && truthyS b.password &&
      truthyS b.firstName && truthyS b.lastName) = true
  · have he : truthyS b.email = true := by
      simp only [Bool.and_eq_true] at hgate
      exact hgate.1.1.1
    simp only [register]
    rw [if_neg (not_not_intro hgate)]
    split
    · left; simp [RegisterResp.status]
    · split
      · rename_i e db1 herr
        left; exact registerCatch_status_ne e
      · rename_i gid? db1 hok
        split
        · rename_i e hcu
          left; exact registerCatch_status_ne e
        · rename_i u db2 hcu
          right
          obtain ⟨hue, -, -, husers, -⟩ := createUser_ok_inv hcu
          refine ⟨he, u, ?_, hue⟩
          rw [husers]
          exact List.mem_append_right _ (List.mem_singleton_self u)
  · left
    simp only [register]
    rw [if_pos hgate]
    simp [RegisterResp.status]

/-! ## Claim theorems -/

/-- C1: for every login request carrying an email that resolves to no user,
and for every login request carrying an email of an existing active user
with an incorrect password, POST /api/auth/login returns the same status
401 and the same body message "Invalid email or password", so the two
causes are indistinguishable from the response. -/
theorem login_unknown_and_wrong_password_indistinguishable
    (db : DB) (b1 b2 : LoginBody) (secret : String) (now : Nat) (u : User)
    (h1e : truthyS b1.email = true) (h1p : truthyS b1.password = true)
    (h2e : truthyS b2.email = true) (h2p : truthyS b2.password = true)
    (hunknown : db.users.find? (fun v => v.email = b1.email.getD "") = none)
    (hfound : db.users.find? (fun v => v.email = b2.email.getD "") = some u)
    (hactive : u.isActive = true)
    (hwrong : bcryptCompare (b2.password.getD "") u.password = false) :
    (login db b1 secret now).1 = .unauthorized "Invalid email or password" ∧
    (login db b2 secret now).1 = .unauthorized "Invalid email or password" ∧
    LoginResp.status (.unauthorized "Invalid email or password") = 401 := by
  refine ⟨?_, ?_, rfl⟩
  · simp [login, h1e, h1p, hunknown]
  · simp [login, h2e, h2p, hfound, hactive, hwrong]

theorem login_unknown_and_wrong_password_indistinguishable_witness :
    (login wDB ⟨some "ghost@example.be", some "Whatever1!"⟩ wSecret 10).1 =
      .unauthorized "Invalid email or password" ∧
    (login wDB ⟨some "seller@example.be", some "WrongPass1!"⟩ wSecret 10).1 =
      .unauthorized "Invalid email or password" ∧
    LoginResp.status (.unauthorized "Invalid email or password") = 401 :=
  login_unknown_and_wrong_password_indistinguishable wDB
    ⟨some "ghost@example.be", some "Whatever1!"⟩
    ⟨some "seller@example.be", some "WrongPass1!"⟩ wSecret 10 wUser
    (by decide) (by decide) (by decide) (by decide)
    (by decide) (by decide) (by decide) (by decide)

/-- C9: for every login request whose email resolves to a user with
isActive = false, the handler returns 401 with the distinct body message
"Account is deactivated" before the password is ever compared, so this
response is produced for any submitted password and is distinguishable
from the generic "Invalid email or password" response. -/
theorem login_deactivated_distinct_response
    (db : DB) (b : LoginBody) (secret : String) (now : Nat) (u : User)
    (he : truthyS b.email = true) (hp : truthyS b.password = true)
    (hfound : db.users.find? (fun v => v.email = b.email.getD "") = some u)
    (hinactive : u.isActive = false) :
    (login db b secret now).1 = .unauthorized "Account is deactivated" ∧
    LoginResp.status (.unauthorized "Account is deactivated") = 401 ∧
    "Account is deactivated" ≠ "Invalid email or password" := by
  refine ⟨?_, rfl, by decide⟩
  simp [login, he, hp, hfound, hinactive]

theorem login_deactivated_distinct_response_witness :
    (login wDB ⟨some "inactive@example.be", some "Carnaval1!"⟩ wSecret 10).1 =
      .unauthorized "Account is deactivated" ∧
    LoginResp.status (.unauthorized "Account is deactivated") = 401 ∧
    "Account is deactivated" ≠ "Invalid email or password" :=
  login_deactivated_distinct_response wDB
    ⟨some "inactive@example.be", some "Carnaval1!"⟩ wSecret 10 wInactiveUser
    (by decide) (by decide) (by decide) (by decide)

/-- C7: a token produced by the issue operation is accepted by verify and
resolves to the same userId at any time strictly before the 7-day
validity boundary; strictly after expiry, verification reports the
expired outcome (401 "Token expired"), distinct from the generic invalid
outcome (401 "Invalid token") used for malformed or badly signed tokens. -/
theorem token_roundtrip_and_expiry
    (uid t0 now : Nat) (secret : String) (db : DB) (raw : String) :
    (now < t0 + sevenDays →
      jwtVerify (generateToken uid secret t0) secret now = .valid uid) ∧
    (t0 + sevenDays < now →
      me db (some (generateToken uid secret t0)) secret now =
        .unauthorized "Token expired") ∧
    me db (some (.malformed raw)) secret now = .unauthorized "Invalid token" ∧
    MeResp.status (.unauthorized "Token expired") = 401 ∧
    MeResp.status (.unauthorized "Invalid token") = 401 ∧
    "Token expired" ≠ "Invalid token" := by
  refine ⟨?_, ?_, ?_, rfl, rfl, by decide⟩
  · intro h
    simp [jwtVerify, generateToken, Nat.not_le.mpr h]
  · intro h
    simp [me, jwtVerify, generateToken, Nat.le_of_lt h]
  · simp [me, jwtVerify]

theorem token_roundtrip_and_expiry_witness :
    jwtVerify (generateToken 7 wSecret 100) wSecret (100 + sevenDays - 1) = .valid 7 ∧
    me wDB (some (generateToken 7 wSecret 100)) wSecret (100 + sevenDays + 1) =
      .unauthorized "Token expired" ∧
    me wDB (some (.malformed "garbage")) wSecret 100 = .unauthorized "Invalid token" :=
  ⟨(token_roundtrip_and_expiry 7 100 (100 + sevenDays - 1) wSecret wDB "garbage").1
      (by decide),
   (token_roundtrip_and_expiry 7 100 (100 + sevenDays + 1) wSecret wDB "garbage").2.1
      (by decide),
   (token_roundtrip_and_expiry 7 100 100 wSecret wDB "garbage").2.2.1⟩

/-- C10: for every authenticated POST /api/products request whose body
carries a falsy price value (such as 0 or the empty string), the handler
returns 400 with the message "Title, description, price, and category are
required", because presence is tested by truthiness; the request never
reaches the data layer and its strictly-positive price validation. -/
theorem create_product_falsy_price_rejected
    (db : DB) (authToken : Option Token) (b : ProductBody) (secret : String)
    (now : Nat) (caller : User)
    (hauth : authenticate db authToken secret now = .ok caller)
    (hfalsy : jsTruthy b.price = false) :
    createProductRoute db authToken b secret now =
      (.badRequest "Title, description, price, and category are required", db) ∧
    ProductResp.status
      (.badRequest "Title, description, price, and category are required") = 400 := by
  refine ⟨?_, rfl⟩
  simp [createProductRoute, hauth, hfalsy]

theorem create_product_falsy_price_rejected_witness :
    createProductRoute wDB (some wToken)
      ⟨some "Carnival mask", some "A hand painted carnival mask", .vn 0,
       none, some 3, none, none, none, none⟩ wSecret 10 =
      (.badRequest "Title, description, price, and category are required", wDB) ∧
    ProductResp.status
      (.badRequest "Title, description, price, and category are required") = 400 :=
  create_product_falsy_price_rejected wDB (some wToken)
    ⟨some "Carnival mask", some "A hand painted carnival mask", .vn 0,
     none, some 3, none, none, none, none⟩ wSecret 10 wUser
    rfl (by decide)

/-- C8 counterexample: an authenticated product-create request with title,
description and a positive price but no categoryId is rejected with 400,
even though a category exists in the database that the claimed
default-substitution would have used; no product is created. -/
theorem create_product_missing_category_not_defaulted :
    createProductRoute wDB (some wToken)
      ⟨some "Carnival mask", some "A hand painted carnival mask", .vn 25,
       none, none, none, none, none, none⟩ wSecret 10 =
      (.badRequest "Title, description, price, and category are required", wDB) ∧
    wDB.categories ≠ [] ∧ wDB.products = [] := by decide

/-- C8 amended: for every authenticated POST /api/products request whose
body lacks a categoryId, the handler returns 400 with the message "Title,
description, price, and category are required" (the required-field check
tests categoryId by truthiness before the default-category branch, which
is therefore unreachable); the database is unchanged. -/
theorem create_product_missing_category_rejected
    (db : DB) (authToken : Option Token) (b : ProductBody) (secret : String)
    (now : Nat) (caller : User)
    (hauth : authenticate db authToken secret now = .ok caller)
    (hc : b.categoryId = none) :
    createProductRoute db authToken b secret now =
      (.badRequest "Title, description, price, and category are required", db) := by
  simp [createProductRoute, hauth, hc]

theorem create_product_missing_category_rejected_witness :
    createProductRoute wDB (some wToken)
      ⟨some "Feather hat", some "A colourful feather hat", .vn 40,
       none, none, none, none, none, none⟩ wSecret 10 =
      (.badRequest "Title, description, price, and category are required", wDB) :=
  create_product_missing_category_rejected wDB (some wToken)
    ⟨some "Feather hat", some "A colourful feather hat", .vn 40,
     none, none, none, none, none, none⟩ wSecret 10 wUser rfl rfl

/-- C5: against an empty database, registering with email, password,
firstName and lastName and no carnivalGroupId creates a CarnivalGroup
named "Default Group" with city Brussels, country Belgium and verified
true, creates the user with carnivalGroupId referencing that group, and
returns 201 with a token whose decoded identity equals the new user id. -/
theorem register_empty_db_default_group_e2e :
    (register DB.empty registerBodyJan wSecret 0).2.groups =
      [⟨0, "Default Group", "Brussels", none, "Belgium", none, none, true⟩] ∧
    (∃ u ∈ (register DB.empty registerBodyJan wSecret 0).2.users,
      u.email = "a@b.com" ∧ u.carnivalGroupId = 0 ∧ u.id = 1) ∧
    (register DB.empty registerBodyJan wSecret 0).1 =
      .created (.signed 1 (0 + sevenDays) wSecret)
        [("id", .vn 1), ("email", .vs "a@b.com"), ("firstName", .vs "Jan"),
         ("lastName", .vs "Peeters"), ("phone", .vnull), ("address", .vnull),
         ("city", .vnull), ("postalCode", .vnull), ("isVerified", .vb false),
         ("isActive", .vb true), ("lastLoginAt", .vnull), ("carnivalGroupId", .vn 0)]
        (some ("Default Group", "Brussels", "Belgium")) ∧
    RegisterResp.status (register DB.empty registerBodyJan wSecret 0).1 = 201 ∧
    jwtVerify (.signed 1 (0 + sevenDays) wSecret) wSecret 0 = .valid 1 := by decide

/-- C3: for every authenticated POST /api/products request, the response
and the resulting database are identical for any two request bodies that
differ only in a sellerId field, every product row the call adds carries
the sellerId of the identity decoded from the caller bearer token, and a
created response reports exactly that sellerId. -/
theorem create_product_sellerId_from_caller_token
    (db : DB) (authToken : Option Token) (b1 b2 : ProductBody)
    (secret : String) (now : Nat) (caller : User)
    (hsame : b1 = { b2 with sellerId := b1.sellerId })
    (hauth : authenticate db authToken secret now = .ok caller) :
    createProductRoute db authToken b1 secret now =
      createProductRoute db authToken b2 secret now ∧
    ((createProductRoute db authToken b1 secret now).2.products.drop
        db.products.length).all (fun q => q.sellerId = caller.id) = true ∧
    ((createProductRoute db authToken b1 secret now).1.createdSellerId = none ∨
      (createProductRoute db authToken b1 secret now).1.createdSellerId =
        some caller.id) := by
  have heq : createProductRoute db authToken b1 secret now =
      createProductRoute db authToken b2 secret now := by
    obtain ⟨t1, d1, pr1, c1, g1, s1, co1, m1, sid1⟩ := b1
    obtain ⟨t2, d2, pr2, c2, g2, s2, co2, m2, sid2⟩ := b2
    injection hsame with h1 h2 h3 h4 h5 h6 h7 h8 h9
    subst h1; subst h2; subst h3; subst h4; subst h5; subst h6; subst h7; subst h8
    rfl
  refine ⟨heq, ?_, ?_⟩
  · simp only [createProductRoute, hauth]
    split
    · simp
    · split
      · simp
      · rename_i q db' hok
        obtain ⟨hs, _, _, hprod, _, _⟩ := createProduct_ok_inv hok
        simp [hprod, List.drop_left, hs]
  · simp only [createProductRoute, hauth]
    split
    · left; rfl
    · split
      · left; rfl
      · rename_i q db' hok
        right
        simp [ProductResp.createdSellerId, projectProduct, (createProduct_ok_inv hok).1]

theorem create_product_sellerId_from_caller_token_witness :
    createProductRoute wDB (some wToken) wBodySpoofed wSecret 10 =
      createProductRoute wDB (some wToken) wBodyPlain wSecret 10 ∧
    ((createProductRoute wDB (some wToken) wBodySpoofed wSecret 10).2.products.drop
        wDB.products.length).all (fun q => q.sellerId = wUser.id) = true ∧
    ((createProductRoute wDB (some wToken) wBodySpoofed wSecret 10).1.createdSellerId = none ∨
      (createProductRoute wDB (some wToken) wBodySpoofed wSecret 10).1.createdSellerId =
        some wUser.id) :=
  create_product_sellerId_from_caller_token wDB (some wToken) wBodySpoofed wBodyPlain
    wSecret 10 wUser rfl rfl

/-- C4: for every registration request with the four required fields
present, a well-formed email not already in use, and a carnival group
reference that is absent or resolves to an existing group, the response
is 201 and carries a token and a user object with no password field. -/
theorem register_response_omits_password
    (db : DB) (b : RegisterBody) (secret : String) (now : Nat)
    (he : truthyS b.email = true) (hp : truthyS b.password = true)
    (hf : truthyS b.firstName = true) (hl : truthyS b.lastName = true)
    (hfmt : isEmailOk (b.email.getD "") = true)
    (hnew : db.users.find? (fun u => u.email = b.email.getD "") = none)
    (hgrp : b.carnivalGroupId = none ∨
      ∃ gid, b.carnivalGroupId = some gid ∧
        db.groups.any (fun g => g.id = gid) = true) :
    RegisterResp.status (register db b secret now).1 = 201 ∧
    "password" ∉ ((register db b secret now).1.userFields.map Prod.fst) ∧
    "email" ∈ ((register db b secret now).1.userFields.map Prod.fst) := by
  have hanyu : db.users.any (fun u => u.email = b.email.getD "") = false :=
    any_eq_false_of_find?_eq_none hnew
  rcases hgrp with hnone | ⟨gid, hsome, hany⟩
  · cases hgs : db.groups with
    | nil =>
      simp [register, he, hp, hf, hl, hnew, resolveGroupId, hnone, hgs,
        DB.createGroup, DB.createUser, hfmt, hanyu, RegisterResp.status,
        RegisterResp.userFields, excludeAttrs, userRow]
    | cons g gs =>
      simp [register, he, hp, hf, hl, hnew, resolveGroupId, hnone, hgs,
        DB.createUser, hfmt, hanyu, RegisterResp.status,
        RegisterResp.userFields, excludeAttrs, userRow]
  · have hfind : (db.groups.find? (fun g => g.id = gid)).isSome := by
      rw [List.find?_isSome]
      simpa [List.any_eq_true] using hany
    obtain ⟨g, hg⟩ := Option.isSome_iff_exists.mp hfind
    simp [register, he, hp, hf, hl, hnew, resolveGroupId, hsome, hg,
      DB.createUser, hfmt, hanyu, hany, RegisterResp.status,
      RegisterResp.userFields, excludeAttrs, userRow]

theorem register_response_omits_password_witness :
    RegisterResp.status (register wDB registerBodyJan wSecret 0).1 = 201 ∧
    "password" ∉ ((register wDB registerBodyJan wSecret 0).1.userFields.map Prod.fst) ∧
    "email" ∈ ((register wDB registerBodyJan wSecret 0).1.userFields.map Prod.fst) :=
  register_response_omits_password wDB registerBodyJan wSecret 0
    (by decide) (by decide) (by decide) (by decide) (by decide) (by decide)
    (Or.inl rfl)

/-- C6 counterexample: registering with a carnivalGroupId that references
no existing group, against a database with no groups at all, does not
succeed and creates no Default Group: the handler returns 400
"Validation error" and leaves the database unchanged. -/
theorem register_invalid_group_no_default_creation :
    register DB.empty registerBodyGhostGroup wSecret 0 =
      (.badRequest "Validation error", DB.empty) ∧
    RegisterResp.status (.badRequest "Validation error") = 400 := by decide

/-- C6 amended: when the supplied carnivalGroupId references no existing
group, the handler silently falls back to the first existing group, and
registration succeeds (201) with the user linked to that group; but when
no group exists at all, the group reference becomes null and the user
creation fails its not-null constraint, so registration returns 400
"Validation error" rather than succeeding, and no Default Group is
created in this branch. -/
theorem register_invalid_group_fallback
    (db : DB) (b : RegisterBody) (secret : String) (now : Nat)
    (gid : Nat) (gopt : Option CarnivalGroup)
    (he : truthyS b.email = true) (hp : truthyS b.password = true)
    (hf : truthyS b.firstName = true) (hl : truthyS b.lastName = true)
    (hfmt : isEmailOk (b.email.getD "") = true)
    (hnew : db.users.find? (fun u => u.email = b.email.getD "") = none)
    (hsome : b.carnivalGroupId = some gid)
    (hinvalid : db.groups.find? (fun g => g.id = gid) = none)
    (hhead : db.groups.head? = gopt) :
    match gopt with
    | none => register db b secret now = (.badRequest "Validation error", db)
    | some g =>
      RegisterResp.status (register db b secret now).1 = 201 ∧
      ((register db b secret now).2.users.drop db.users.length).map
        (fun u => u.carnivalGroupId) = [g.id] := by
  have hanyu : db.users.any (fun u => u.email = b.email.getD "") = false :=
    any_eq_false_of_find?_eq_none hnew
  cases gopt with
  | none =>
    have hgs : db.groups = [] := by simpa using hhead
    rw [hgs] at hinvalid
    simp [register, he, hp, hf, hl, hnew, resolveGroupId, hsome, hinvalid, hgs,
      DB.createUser, hfmt, hanyu, registerCatch]
  | some g =>
    obtain ⟨gs, hgs⟩ : ∃ t, db.groups = g :: t := by
      cases hq : db.groups with
      | nil => rw [hq] at hhead; simp at hhead
      | cons x xs =>
        rw [hq] at hhead
        simp only [List.head?_cons, Option.some.injEq] at hhead
        exact ⟨xs, by rw [hhead]⟩
    rw [hgs] at hinvalid
    simp [register, he, hp, hf, hl, hnew, resolveGroupId, hsome, hinvalid, hgs,
      DB.createUser, hfmt, hanyu, registerCatch, RegisterResp.status,
      List.drop_left]

/-- C2: if a registration succeeds (201), a second registration with the
same email against the resulting database returns status 400; and in
every database state reachable through the API from the empty state, at
most one User row exists with any given email. -/
theorem register_duplicate_email_rejected
    (db : DB) (b1 b2 : RegisterBody) (s1 s2 : String) (n1 n2 : Nat)
    (ops : List Op) (e : String)
    (hsame : b2.email = b1.email)
    (h1 : RegisterResp.status (register db b1 s1 n1).1 = 201) :
    RegisterResp.status (register (register db b1 s1 n1).2 b2 s2 n2).1 = 400 ∧
    ((run ops).users.filter (fun u => u.email = e)).length ≤ 1 := by
  constructor
  · rcases register_cases db b1 s1 n1 with h' | ⟨hte, u, hu, hue⟩
    · exact absurd h1 h'
    · simp only [register]
      split
      · rfl
      · split
        · rfl
        · rename_i hfind
          exfalso
          rw [List.find?_eq_none] at hfind
          have hcontra := hfind u hu
          simp only [decide_eq_true_eq] at hcontra
          exact hcontra (by rw [hsame]; exact hue)
  · exact length_filter_le_one_of_nodup_map (fun u => u.email) (run ops).users
      (run_wf ops).1 e

theorem register_duplicate_email_rejected_witness :
    RegisterResp.status
      (register (register DB.empty registerBodyJan wSecret 0).2
        registerBodyJan wSecret 5).1 = 400 ∧
    ((run [.opRegister registerBodyJan wSecret 0,
           .opRegister registerBodyJan wSecret 5]).users.filter
      (fun u => u.email = "a@b.com")).length ≤ 1 :=
  register_duplicate_email_rejected DB.empty registerBodyJan registerBodyJan
    wSecret wSecret 0 5
    [.opRegister registerBodyJan wSecret 0, .opRegister registerBodyJan wSecret 5]
    "a@b.com" rfl (by decide)

theorem register_invalid_group_fallback_witness :
    RegisterResp.status (register wDB registerBodyGhostGroup wSecret 0).1 = 201 ∧
    ((register wDB registerBodyGhostGroup wSecret 0).2.users.drop
        wDB.users.length).map (fun u => u.carnivalGroupId) = [wGroup.id] :=
  register_invalid_group_fallback wDB registerBodyGhostGroup wSecret 0 42 (some wGroup)
    (by decide) (by decide) (by decide) (by decide) (by decide) (by decide)
    rfl (by decide) rfl

end Carnaval
